import Mathlib

/-!
Verification development for the BTC short-strangle strategy bot
(`main.py`).  The strategy core — entry-suitability gate, risk-based
position sizing, strike selection, the exit state machine and the
session clock — is embedded shallowly below.  Prices, premiums and
configuration parameters are modelled as exact rationals (`ℚ`); the
historical-volatility estimator, which uses `math.log`/`math.sqrt`,
is modelled over `ℝ`.  Network fetches are modelled as explicit
inputs (a premium oracle `ℕ → ℚ`, an already-resolved option chain,
an already-fetched candle list); a failed fetch is the `none` /
empty-list input, matching the source's fallback behaviour.
-/

namespace StrangleBot

/-! ## Configuration constants (main.py lines 29–40) -/

def OTM_PERCENTAGE : ℚ := 2/100

def OTM_LOW_IV : ℚ := 15/1000

def SL_MULTIPLIER : ℚ := 5

def MIN_COMBINED_PREMIUM : ℚ := 20

/-- `PREMIUM_BALANCE_RATIO` in the source. -/
def PREMIUM_BALANCE_LIMIT : ℚ := 3/10

def MAX_HV : ℚ := 70

def RISK_PER_DAY_USD : ℚ := 1176/100

/-! ## Basic data -/

/-- Trade mode global `trade_mode` ("REAL" / "VIRTUAL"). -/
inductive Mode where
  | REAL
  | VIRTUAL
deriving DecidableEq, Repr

/-- The `status` field written into the decision log by `execute_entry`. -/
inductive EntryStatus where
  | EXECUTED
  | VIRTUAL_TRACKING
  | SKIPPED_NO_DATA
  | SKIPPED_NO_PREMIUM
deriving DecidableEq, Repr

/-- One live option contract as produced by `get_options_chain`:
product id, call/put flag, strike. -/
structure OptionC where
  pid : ℕ
  isCall : Bool
  strike : ℚ
deriving DecidableEq, Repr

/-- A selected leg, the `{"product_id": …, "strike": …}` dict returned by
`find_best_strikes`. -/
structure Sel where
  product_id : ℕ
  strike : ℚ
deriving DecidableEq, Repr

/-! ## Position sizing (`calculate_position_size`, lines 322–335) -/

/-- Python `int()` applied to a rational: truncation toward zero. -/
def pyInt (q : ℚ) : ℤ := if q < 0 then -⌊-q⌋ else ⌊q⌋

/-- `calculate_position_size`.  Note that the source's final
`return max(1, int(qty))` (line 335) is unreachable: the function
returns `max(1, int(qty * 10))` at line 331. -/
def calculate_position_size (premium : ℚ) : ℤ :=
  if premium ≤ 0 then 0
  else
    let loss_per_contract := premium * (SL_MULTIPLIER - 1)
    if loss_per_contract ≤ 0 then 1
    else
      let qty := RISK_PER_DAY_USD / loss_per_contract
      max 1 (pyInt (qty * 10))

/-! ## Market-condition checks (`check_market_conditions`, lines 166–208).
The historical volatility is fetched inside the source function; here it is
an explicit argument `hv_check`. -/

/-- The trend check (lines 178–196): auto-pass when day high/low are not yet
established or the range is not positive; reject in the top or bottom 20% of
the day range. -/
def trend_check (spot : ℚ) (dHigh dLow : Option ℚ) : Bool :=
  match dHigh, dLow with
  | some dh, some dl =>
      let range := dh - dl
      if range > 0 then
        let upper := dl + range * (8/10)
        let lower := dl + range * (2/10)
        if spot ≥ upper then false
        else if spot ≤ lower then false
        else true
      else true
  | _, _ => true

/-- `check_market_conditions` reduced to its `is_valid` result: trend check
and volatility ceiling. -/
def check_market_conditions (spot : ℚ) (dHigh dLow : Option ℚ) (hv_check : ℚ) : Bool :=
  trend_check spot dHigh dLow && !(hv_check > MAX_HV)

/-! ## Strike selection (`find_best_strikes`, lines 286–309) -/

/-- Python's `min(xs, key=f)` over a nonempty list: the first element with
minimal key. -/
def pymin (f : OptionC → ℚ) (x : OptionC) (xs : List OptionC) : OptionC :=
  xs.foldl (fun b a => if f a < f b then a else b) x

/-- `find_best_strikes`: `none` models the Python `(None, None)` result
(empty chain, or no calls, or no puts). -/
def find_best_strikes (spot otm_pct : ℚ) (chain : List OptionC) : Option (Sel × Sel) :=
  if chain = [] then none
  else
    let target_call := spot * (1 + otm_pct)
    let target_put := spot * (1 - otm_pct)
    let calls := chain.filter (·.isCall)
    let puts := chain.filter (fun o => !o.isCall)
    match calls, puts with
    | c :: cs, p :: ps =>
        let bc := pymin (fun x => |x.strike - target_call|) c cs
        let bp := pymin (fun x => |x.strike - target_put|) p ps
        some (⟨bc.pid, bc.strike⟩, ⟨bp.pid, bp.strike⟩)
    | _, _ => none

/-! ## Entry (`execute_entry`, lines 338–563) -/

/-- The OTM offset chosen at line 352: `OTM_LOW_IV if hv < 30 else
OTM_PERCENTAGE`. -/
def otm_for (hv : ℚ) : ℚ := if hv < 30 then OTM_LOW_IV else OTM_PERCENTAGE

/-- The per-leg sizing/identification globals committed by `execute_entry`
(lines 450–458 and 524–525). -/
structure EntrySizing where
  call_strike : ℚ
  put_strike : ℚ
  call_entry : ℚ
  put_entry : ℚ
  call_sl : ℚ
  put_sl : ℚ
  call_pid : ℕ
  put_pid : ℕ
  call_qty : ℤ
  put_qty : ℤ
deriving DecidableEq, Repr

/-- The observable effect of one `execute_entry` call on the global state:
the outgoing `trade_mode`, the logged status, whether `position_active` was
set, and the committed sizing globals (`none` on the hard-abort paths,
where the source returns before lines 450–458). -/
structure EntryResult where
  mode : Mode
  status : EntryStatus
  position_active : Bool
  sizing : Option EntrySizing
deriving DecidableEq, Repr

/-- `execute_entry`.  `mode0` is the incoming global `trade_mode`;
`dHigh`/`dLow` are the globals `day_high`/`day_low` at call time;
`hv_check` is the volatility fetched inside `check_market_conditions`
(line 199), `hv` the one recomputed at line 351; `chain` is the resolved
options chain and `prem` the premium oracle (`get_option_premium`, where
`0` models an unavailable premium). -/
def execute_entry (mode0 : Mode) (spot : ℚ) (dHigh dLow : Option ℚ)
    (hv_check hv : ℚ) (chain : List OptionC) (prem : ℕ → ℚ) : EntryResult :=
  let is_suitable := check_market_conditions spot dHigh dLow hv_check
  -- best_call/best_put stay None when the chain is empty (lines 357, 361–362)
  let sel := if chain = [] then none else find_best_strikes spot (otm_for hv) chain
  -- lines 398–401: a failed suitability check downgrades REAL to VIRTUAL
  let mode1 := if !is_suitable then Mode.VIRTUAL else mode0
  match sel with
  | none =>
      -- lines 416–429: hard abort, no position
      { mode := mode1, status := .SKIPPED_NO_DATA, position_active := false, sizing := none }
  | some (bc, bp) =>
      let call_premium := prem bc.product_id
      let put_premium := prem bp.product_id
      if call_premium = 0 ∨ put_premium = 0 then
        -- lines 431–444: hard abort, no position
        { mode := mode1, status := .SKIPPED_NO_PREMIUM, position_active := false, sizing := none }
      else
        let call_qty := calculate_position_size call_premium
        let put_qty := calculate_position_size put_premium
        let mx := max call_premium put_premium
        let premium_ratio := if mx > 0 then |call_premium - put_premium| / mx else 1
        -- lines 476–479: premium imbalance downgrades to VIRTUAL, proceeds
        let mode2 := if premium_ratio > PREMIUM_BALANCE_LIMIT then Mode.VIRTUAL else mode1
        let combined := call_premium + put_premium
        -- lines 501–504: low combined premium downgrades to VIRTUAL, proceeds
        let mode3 := if combined < MIN_COMBINED_PREMIUM then Mode.VIRTUAL else mode2
        { mode := mode3
          status := if mode3 = Mode.REAL then .EXECUTED else .VIRTUAL_TRACKING
          position_active := true
          sizing := some
            { call_strike := bc.strike
              put_strike := bp.strike
              call_entry := call_premium
              put_entry := put_premium
              call_sl := call_premium * SL_MULTIPLIER
              put_sl := put_premium * SL_MULTIPLIER
              call_pid := bc.product_id
              put_pid := bp.product_id
              call_qty := call_qty
              put_qty := put_qty } }

/-- The five EntryGate checks of the specification, stated on the same
inputs as `execute_entry`: trend, volatility, data retrieval (strikes found
and both premiums available), premium balance, minimum combined premium. -/
def entry_checks_pass (spot : ℚ) (dHigh dLow : Option ℚ)
    (hv_check hv : ℚ) (chain : List OptionC) (prem : ℕ → ℚ) : Bool :=
  check_market_conditions spot dHigh dLow hv_check &&
  match (if chain = [] then none else find_best_strikes spot (otm_for hv) chain) with
  | none => false
  | some (bc, bp) =>
      let c := prem bc.product_id
      let p := prem bp.product_id
      !(c = 0) && !(p = 0) &&
      decide (|c - p| / max c p ≤ PREMIUM_BALANCE_LIMIT) &&
      decide (c + p ≥ MIN_COMBINED_PREMIUM)

/-! ## Exit state machine (`check_exit_conditions`, lines 565–633) -/

inductive ExitReason where
  | SL_HIT_CALL
  | SL_HIT_PUT
  | TIME_EXIT_1230
  | TIME_EXIT_1715
  | DAY_HIGH_BREAKOUT
  | DAY_LOW_BREAKDOWN
deriving DecidableEq, Repr

/-- One stop-loss leg check (lines 573–582 / 584–593): requires the
product id to be set, the fetched premium to be truthy (nonzero) and at or
above the stop.  Returns the triggering premium. -/
def slCheck (pid? : Option ℕ) (sl : ℚ) (prem : ℕ → ℚ) : Option ℚ :=
  match pid? with
  | none => none
  | some pid =>
      let c := prem pid
      if c ≠ 0 ∧ c ≥ sl then some c else none

/-- Python truthiness of `day_high and spot_price > day_high` (line 617). -/
def day_high_break (dayHigh : Option ℚ) (spot : ℚ) : Bool :=
  match dayHigh with
  | none => false
  | some x => if x = 0 then false else decide (spot > x)

/-- Python truthiness of `day_low and spot_price < day_low` (line 626). -/
def day_low_break (dayLow : Option ℚ) (spot : ℚ) : Bool :=
  match dayLow with
  | none => false
  | some x => if x = 0 then false else decide (spot < x)

/-- `check_exit_conditions` on an active position, as the first matching
exit (reason, exit price) in the source's order: call stop-loss, put
stop-loss, 12:30 exit, 17:15 exit, day-high breakout, day-low breakdown. -/
def check_exit_conditions (callPid putPid : Option ℕ) (callSl putSl : ℚ)
    (prem : ℕ → ℚ) (h m : ℕ) (spot : ℚ) (dayHigh dayLow : Option ℚ) :
    Option (ExitReason × ℚ) :=
  match slCheck callPid callSl prem with
  | some c => some (.SL_HIT_CALL, c)
  | none =>
  match slCheck putPid putSl prem with
  | some p => some (.SL_HIT_PUT, p)
  | none =>
  if h = 12 ∧ m = 30 then some (.TIME_EXIT_1230, spot)
  else if h = 17 ∧ m = 15 then some (.TIME_EXIT_1715, spot)
  else if day_high_break dayHigh spot then some (.DAY_HIGH_BREAKOUT, spot)
  else if day_low_break dayLow spot then some (.DAY_LOW_BREAKDOWN, spot)
  else none

/-! ## Session clock and polling loop (`run_market_monitor`, lines 635–677) -/

/-- The global state read and written by one polling tick.  The
string-valued `no_trade_reason` and the notification/log side effects are
not modelled; `lastExit` records the `update_trade_log` amendment made when
a position closes. -/
structure BotState where
  basePrice : Option ℚ
  dayHigh : Option ℚ
  dayLow : Option ℚ
  prevDayHigh : Option ℚ
  prevDayLow : Option ℚ
  tradeExecutedToday : Bool
  positionActive : Bool
  tradeMode : Mode
  callSl : ℚ
  putSl : ℚ
  callPid : Option ℕ
  putPid : Option ℕ
  lastExit : Option (ExitReason × ℚ)
deriving DecidableEq, Repr

/-- The process-start state of the globals (lines 43–62).  `call_sl` and
`put_sl` start as `None` in the source but are only ever read after an
entry has assigned them; they are modelled as `0` until then. -/
def initialState : BotState :=
  { basePrice := none
    dayHigh := none
    dayLow := none
    prevDayHigh := none
    prevDayLow := none
    tradeExecutedToday := false
    positionActive := false
    tradeMode := .REAL
    callSl := 0
    putSl := 0
    callPid := none
    putPid := none
    lastExit := none }

/-- Lines 650–653: widen `day_high` / `day_low` with the fresh spot. -/
def update_day_stats (dayHigh dayLow : Option ℚ) (spot : ℚ) :
    Option ℚ × Option ℚ :=
  ( some (match dayHigh with
          | none => spot
          | some x => if spot > x then spot else x),
    some (match dayLow with
          | none => spot
          | some x => if spot < x then spot else x) )

/-- The tick state after the day-stats update and the (possible) 8:00 entry
trigger (lines 650–659), before exits are evaluated. -/
def tick_after_entry (s : BotState) (spot : ℚ) (h m : ℕ)
    (hv_check hv : ℚ) (chain : List OptionC) (prem : ℕ → ℚ) : BotState :=
  let stats := update_day_stats s.dayHigh s.dayLow spot
  let s1 : BotState := { s with dayHigh := stats.1, dayLow := stats.2 }
  if h = 8 ∧ m = 0 ∧ s1.tradeExecutedToday = false ∧ s1.positionActive = false then
    let r := execute_entry s1.tradeMode spot s1.dayHigh s1.dayLow hv_check hv chain prem
    match r.sizing with
    | some z =>
        { s1 with
          basePrice := some spot
          tradeMode := r.mode
          positionActive := r.position_active
          callSl := z.call_sl
          putSl := z.put_sl
          callPid := some z.call_pid
          putPid := some z.put_pid
          tradeExecutedToday := true }
    | none =>
        { s1 with
          basePrice := some spot
          tradeMode := r.mode
          positionActive := r.position_active
          tradeExecutedToday := true }
  else s1

/-- The exit recorded on this tick, if any (lines 661–662): exits are only
evaluated while a position is active, against the already-updated day
high/low. -/
def tick_exit_result (s : BotState) (spot : ℚ) (h m : ℕ)
    (hv_check hv : ℚ) (chain : List OptionC) (prem : ℕ → ℚ) :
    Option (ExitReason × ℚ) :=
  let s2 := tick_after_entry s spot h m hv_check hv chain prem
  if s2.positionActive then
    check_exit_conditions s2.callPid s2.putPid s2.callSl s2.putSl prem h m spot
      s2.dayHigh s2.dayLow
  else none

/-- One iteration of the polling loop (lines 644–671) on a successfully
fetched price `some spot` (a `none` price skips all state updates). -/
def monitor_tick (s : BotState) (price : Option ℚ) (h m : ℕ)
    (hv_check hv : ℚ) (chain : List OptionC) (prem : ℕ → ℚ) : BotState :=
  match price with
  | none => s
  | some spot =>
      let s2 := tick_after_entry s spot h m hv_check hv chain prem
      let s3 : BotState :=
        match tick_exit_result s spot h m hv_check hv chain prem with
        | some e =>
            { s2 with
              positionActive := false
              lastExit := some e }
        | none => s2
      -- lines 664–671: midnight reset (base_price is not touched here)
      if h = 0 ∧ m = 0 then
        { s3 with
          tradeExecutedToday := false
          prevDayHigh := s3.dayHigh
          prevDayLow := s3.dayLow
          dayHigh := none
          dayLow := none }
      else s3

/-! ## Historical volatility (`get_historical_volatility`, lines 225–252).
Python floats and `math.log` / `math.sqrt` are modelled over `ℝ`. -/

/-- One daily candle, reduced to the only field the estimator reads
(`float(c['close'])`). -/
structure Candle where
  close : ℝ

/-- Round-half-to-even to an integer, the semantics of Python's `round`. -/
noncomputable def round_half_even (x : ℝ) : ℤ :=
  if Int.fract x = 1/2 then (if Even ⌊x⌋ then ⌊x⌋ else ⌊x⌋ + 1) else round x

/-- Python's `round(x, 2)`. -/
noncomputable def py_round2 (x : ℝ) : ℝ :=
  (round_half_even (x * 100) : ℝ) / 100

/-- The loop at lines 234–237: consecutive log-returns
`log(closes[i] / closes[i-1])`. -/
noncomputable def log_returns (closes : List ℝ) : List ℝ :=
  List.zipWith (fun prev curr => Real.log (curr / prev)) closes closes.tail

/-- `get_historical_volatility` on an already-fetched candle list: a failed
candle request is the empty list (`get_daily_candles` returns `[]` on
error), which falls into the `< 10` fallback. -/
noncomputable def get_historical_volatility (candles : List Candle) : ℝ :=
  if candles.length < 10 then 40
  else
    let closes := candles.map Candle.close
    let lr := log_returns closes
    if lr = [] then 40
    else
      let mean_return := lr.sum / (lr.length : ℝ)
      let variance := (lr.map (fun r => (r - mean_return) ^ 2)).sum / ((lr.length : ℝ) - 1)
      let std_dev := Real.sqrt variance
      py_round2 (std_dev * Real.sqrt 365 * 100)

/-- Modelled from the spec's words (§4.1): annualized HV percentage =
stdev(log-returns) × √365 × 100 with the sample (N−1) variance, stated
over index sums rather than the source's list traversal.  Used as the
reference in the refinement theorem for the volatility estimator. -/
noncomputable def hv_spec (closes : List ℝ) : ℝ :=
  let n := closes.length
  let ret : ℕ → ℝ := fun i => Real.log (closes.getD (i + 1) 0 / closes.getD i 0)
  let mean := (∑ i in Finset.range (n - 1), ret i) / ((n : ℝ) - 1)
  let svar := (∑ i in Finset.range (n - 1), (ret i - mean) ^ 2) / ((n : ℝ) - 2)
  Real.sqrt svar * Real.sqrt 365 * 100

/-! ## Concrete test fixtures used by witnesses and counterexamples -/

/-- A two-contract chain: one call at 102, one put at 98. -/
def demoChain : List OptionC := [⟨1, true, 102⟩, ⟨2, false, 98⟩]

/-- Premium oracle: 30 for the call (pid 1), 32 for the put. -/
def demoPrem : ℕ → ℚ := fun pid => if pid = 1 then 30 else 32

/-- Day 1, 8:00 tick at spot 100 with historical volatility 80 (fails the
volatility ceiling, downgrading the run to VIRTUAL). -/
def c1s1 : BotState := monitor_tick initialState (some 100) 8 0 80 40 demoChain demoPrem

/-- Day 1, 12:30 tick: the virtual position is closed by the time exit. -/
def c1s2 : BotState := monitor_tick c1s1 (some 100) 12 30 40 40 demoChain demoPrem

/-- Day 1→2 midnight tick: per-day state reset. -/
def c1s3 : BotState := monitor_tick c1s2 (some 100) 0 0 40 40 demoChain demoPrem

/-- Day 2, 8:00 tick at spot 100 with historical volatility 40: every
EntryGate check passes on this attempt. -/
def c1s4 : BotState := monitor_tick c1s3 (some 100) 8 0 40 40 demoChain demoPrem

/-- An ACTIVE position with stops well above the current premiums, day high
100 / day low 99 before the tick: the claimed breakout scenario. -/
def c4state : BotState :=
  { initialState with
    dayHigh := some 100
    dayLow := some 99
    tradeExecutedToday := true
    positionActive := true
    callSl := 150
    putSl := 160
    callPid := some 1
    putPid := some 2 }

/-- A state carrying a set `base_price` into the midnight tick. -/
def c5state : BotState :=
  { initialState with
    basePrice := some 50000
    dayHigh := some 101
    dayLow := some 99
    tradeExecutedToday := true }

/-- The single nonzero log-return of the volatility counterexample,
chosen so that the annualized volatility is the irrational 100√2. -/
noncomputable def c8t : ℝ := 3 * Real.sqrt (2/365)

/-- Ten daily closes: 1 followed by nine copies of `exp c8t`, so the
log-returns are `c8t, 0, 0, …, 0`. -/
noncomputable def c8candles : List Candle :=
  [⟨1⟩, ⟨Real.exp c8t⟩, ⟨Real.exp c8t⟩, ⟨Real.exp c8t⟩, ⟨Real.exp c8t⟩,
   ⟨Real.exp c8t⟩, ⟨Real.exp c8t⟩, ⟨Real.exp c8t⟩, ⟨Real.exp c8t⟩, ⟨Real.exp c8t⟩]

/-! ## Helper lemmas -/

/-- For a positive premium, `calculate_position_size` is
`max 1 ⌊risk / (premium × (M−1)) × 10⌋` — note the source's extra
factor 10 at line 331. -/
theorem calculate_position_size_pos (p : ℚ) (hp : 0 < p) :
    calculate_position_size p
      = max 1 ⌊RISK_PER_DAY_USD / (p * (SL_MULTIPLIER - 1)) * 10⌋ := by
  have hs : SL_MULTIPLIER - 1 = 4 := by norm_num [SL_MULTIPLIER]
  have hl : 0 < p * (SL_MULTIPLIER - 1) := by rw [hs]; positivity
  have hR : (0:ℚ) < RISK_PER_DAY_USD := by norm_num [RISK_PER_DAY_USD]
  have hq : 0 ≤ RISK_PER_DAY_USD / (p * (SL_MULTIPLIER - 1)) * 10 := by positivity
  simp only [calculate_position_size, pyInt]
  rw [if_neg (not_le.mpr hp), if_neg (not_le.mpr hl), if_neg (not_lt.mpr hq)]

/-- The fields of the tick state that the 8:00 entry trigger never
touches. -/
theorem tick_after_entry_untouched (s : BotState) (spot : ℚ) (h m : ℕ)
    (hv_check hv : ℚ) (chain : List OptionC) (prem : ℕ → ℚ) :
    (tick_after_entry s spot h m hv_check hv chain prem).dayHigh
        = (update_day_stats s.dayHigh s.dayLow spot).1 ∧
    (tick_after_entry s spot h m hv_check hv chain prem).dayLow
        = (update_day_stats s.dayHigh s.dayLow spot).2 ∧
    (tick_after_entry s spot h m hv_check hv chain prem).prevDayHigh
        = s.prevDayHigh ∧
    (tick_after_entry s spot h m hv_check hv chain prem).prevDayLow
        = s.prevDayLow ∧
    (tick_after_entry s spot h m hv_check hv chain prem).lastExit
        = s.lastExit := by
  refine ⟨?_, ?_, ?_, ?_, ?_⟩ <;>
  · simp only [tick_after_entry]
    split
    · split <;> rfl
    · rfl

/-- When the entry trigger condition does not hold, the tick only updates
the day stats before evaluating exits. -/
theorem tick_after_entry_not_fired (s : BotState) (spot : ℚ) (h m : ℕ)
    (hv_check hv : ℚ) (chain : List OptionC) (prem : ℕ → ℚ)
    (hno : ¬(h = 8 ∧ m = 0 ∧ s.tradeExecutedToday = false ∧ s.positionActive = false)) :
    tick_after_entry s spot h m hv_check hv chain prem
      = { s with
          dayHigh := (update_day_stats s.dayHigh s.dayLow spot).1
          dayLow := (update_day_stats s.dayHigh s.dayLow spot).2 } := by
  unfold tick_after_entry
  rw [if_neg hno]

/-- A fetched tick that is not the midnight tick leaves exactly the updated
day stats in the state, and never turns `trade_executed_today` off. -/
theorem monitor_tick_not_midnight (s : BotState) (spot : ℚ) (h m : ℕ)
    (hv_check hv : ℚ) (chain : List OptionC) (prem : ℕ → ℚ)
    (hmid : ¬(h = 0 ∧ m = 0)) :
    (monitor_tick s (some spot) h m hv_check hv chain prem).dayHigh
        = (update_day_stats s.dayHigh s.dayLow spot).1 ∧
    (monitor_tick s (some spot) h m hv_check hv chain prem).dayLow
        = (update_day_stats s.dayHigh s.dayLow spot).2 ∧
    (s.tradeExecutedToday = true →
      (monitor_tick s (some spot) h m hv_check hv chain prem).tradeExecutedToday = true) := by
  have hu := tick_after_entry_untouched s spot h m hv_check hv chain prem
  simp only [monitor_tick, if_neg hmid]
  cases htick : tick_exit_result s spot h m hv_check hv chain prem with
  | none =>
      simp only [htick]
      refine ⟨hu.1, hu.2.1, ?_⟩
      intro ht
      rw [tick_after_entry_not_fired s spot h m hv_check hv chain prem (by simp [ht])]
      exact ht
  | some e =>
      simp only [htick]
      refine ⟨hu.1, hu.2.1, ?_⟩
      intro ht
      rw [tick_after_entry_not_fired s spot h m hv_check hv chain prem (by simp [ht])]
      exact ht

/-- The updated day high is a `some` value at least the spot. -/
theorem update_day_stats_high_le (dh0 dl0 : Option ℚ) (spot : ℚ) :
    ∃ v, (update_day_stats dh0 dl0 spot).1 = some v ∧ spot ≤ v := by
  simp only [update_day_stats]
  cases dh0 with
  | none => exact ⟨spot, rfl, le_refl spot⟩
  | some x =>
      by_cases hgt : spot > x
      · exact ⟨spot, by simp [hgt], le_refl spot⟩
      · exact ⟨x, by simp [hgt], le_of_not_lt hgt⟩

/-- The updated day low is a `some` value at most the spot. -/
theorem update_day_stats_low_ge (dh0 dl0 : Option ℚ) (spot : ℚ) :
    ∃ v, (update_day_stats dh0 dl0 spot).2 = some v ∧ v ≤ spot := by
  simp only [update_day_stats]
  cases dl0 with
  | none => exact ⟨spot, rfl, le_refl spot⟩
  | some x =>
      by_cases hlt : spot < x
      · exact ⟨spot, by simp [hlt], le_refl spot⟩
      · exact ⟨x, by simp [hlt], le_of_not_lt hlt⟩

/-- After the day-stats update the day high is at least the spot, so the
source's strict `spot > day_high` breakout test is false. -/
theorem day_high_break_updated (dh0 dl0 : Option ℚ) (spot : ℚ) :
    day_high_break (update_day_stats dh0 dl0 spot).1 spot = false := by
  obtain ⟨v, hv, hle⟩ := update_day_stats_high_le dh0 dl0 spot
  rw [hv]
  simp only [day_high_break]
  split
  · rfl
  · simp [not_lt.mpr hle]

/-- After the day-stats update the day low is at most the spot, so the
source's strict `spot < day_low` breakdown test is false. -/
theorem day_low_break_updated (dh0 dl0 : Option ℚ) (spot : ℚ) :
    day_low_break (update_day_stats dh0 dl0 spot).2 spot = false := by
  obtain ⟨v, hv, hle⟩ := update_day_stats_low_ge dh0 dl0 spot
  rw [hv]
  simp only [day_low_break]
  split
  · rfl
  · simp [not_lt.mpr hle]

/-- Day 1 evaluation: the 8:00 tick with HV 80 fails the volatility check,
opens the position in VIRTUAL mode and leaves `trade_mode = VIRTUAL`. -/
theorem c1s1_eval :
    c1s1 = { basePrice := some 100
             dayHigh := some 100
             dayLow := some 100
             prevDayHigh := none
             prevDayLow := none
             tradeExecutedToday := true
             positionActive := true
             tradeMode := Mode.VIRTUAL
             callSl := 150
             putSl := 160
             callPid := some 1
             putPid := some 2
             lastExit := none } := by
  norm_num [c1s1, monitor_tick, tick_after_entry, tick_exit_result, update_day_stats,
    execute_entry, demoChain, demoPrem, find_best_strikes, pymin, otm_for,
    check_market_conditions, trend_check, calculate_position_size, pyInt,
    check_exit_conditions, slCheck, day_high_break, day_low_break, initialState,
    OTM_PERCENTAGE, OTM_LOW_IV, SL_MULTIPLIER, MIN_COMBINED_PREMIUM,
    PREMIUM_BALANCE_LIMIT, MAX_HV, RISK_PER_DAY_USD, List.filter, List.cons_ne_nil,
    show Mode.VIRTUAL ≠ Mode.REAL from fun hmode => Mode.noConfusion hmode]

/-- Day 1, 12:30 tick: the virtual position closes with the time exit. -/
theorem c1s2_eval :
    c1s2 = { basePrice := some 100
             dayHigh := some 100
             dayLow := some 100
             prevDayHigh := none
             prevDayLow := none
             tradeExecutedToday := true
             positionActive := false
             tradeMode := Mode.VIRTUAL
             callSl := 150
             putSl := 160
             callPid := some 1
             putPid := some 2
             lastExit := some (.TIME_EXIT_1230, 100) } := by
  rw [c1s2, c1s1_eval]
  norm_num [monitor_tick, tick_after_entry, tick_exit_result, update_day_stats,
    check_exit_conditions, slCheck, day_high_break, day_low_break, demoPrem]

/-- Midnight tick: day stats and the daily flag reset; `trade_mode` stays
VIRTUAL. -/
theorem c1s3_eval :
    c1s3 = { basePrice := some 100
             dayHigh := none
             dayLow := none
             prevDayHigh := some 100
             prevDayLow := some 100
             tradeExecutedToday := false
             positionActive := false
             tradeMode := Mode.VIRTUAL
             callSl := 150
             putSl := 160
             callPid := some 1
             putPid := some 2
             lastExit := some (.TIME_EXIT_1230, 100) } := by
  rw [c1s3, c1s2_eval]
  norm_num [monitor_tick, tick_after_entry, tick_exit_result, update_day_stats,
    check_exit_conditions, slCheck, day_high_break, day_low_break, demoPrem]

/-- Day 2, 8:00 tick: every EntryGate check passes, yet the position opens
VIRTUAL because the global `trade_mode` was never reset. -/
theorem c1s4_eval :
    c1s4 = { basePrice := some 100
             dayHigh := some 100
             dayLow := some 100
             prevDayHigh := some 100
             prevDayLow := some 100
             tradeExecutedToday := true
             positionActive := true
             tradeMode := Mode.VIRTUAL
             callSl := 150
             putSl := 160
             callPid := some 1
             putPid := some 2
             lastExit := some (.TIME_EXIT_1230, 100) } := by
  rw [c1s4, c1s3_eval]
  norm_num [monitor_tick, tick_after_entry, tick_exit_result, update_day_stats,
    execute_entry, demoChain, demoPrem, find_best_strikes, pymin, otm_for,
    check_market_conditions, trend_check, calculate_position_size, pyInt,
    check_exit_conditions, slCheck, day_high_break, day_low_break,
    OTM_PERCENTAGE, OTM_LOW_IV, SL_MULTIPLIER, MIN_COMBINED_PREMIUM,
    PREMIUM_BALANCE_LIMIT, MAX_HV, RISK_PER_DAY_USD, List.filter, List.cons_ne_nil,
    show Mode.VIRTUAL ≠ Mode.REAL from fun hmode => Mode.noConfusion hmode]

/-- The log-return list has one element fewer than the close list. -/
theorem log_returns_length (closes : List ℝ) :
    (log_returns closes).length = closes.length - 1 := by
  simp only [log_returns, List.length_zipWith, List.length_tail]
  omega

/-- The source's log-return loop, re-indexed: element `i` is
`log(closes[i+1] / closes[i])`. -/
theorem log_returns_eq_ofFn (closes : List ℝ) :
    log_returns closes
      = List.ofFn (fun i : Fin (closes.length - 1) =>
          Real.log (closes.getD (i + 1) 0 / closes.getD i 0)) := by
  apply List.ext_getElem
  · rw [log_returns_length, List.length_ofFn]
  · intro i h1 h2
    have hi : i < closes.length - 1 := by rw [log_returns_length] at h1; exact h1
    have hi1 : i + 1 < closes.length := by omega
    have hi0 : i < closes.length := by omega
    have hit : i < closes.tail.length := by rw [List.length_tail]; omega
    simp only [log_returns, List.getElem_zipWith, List.getElem_ofFn]
    rw [List.getElem_tail, List.getD_eq_getElem closes 0 hi1, List.getD_eq_getElem closes 0 hi0]

/-- The source's list-traversal volatility computation equals the
index-sum specification formula, rounded to two decimals. -/
theorem hv_code_eq_spec (candles : List Candle) (h10 : 10 ≤ candles.length) :
    get_historical_volatility candles
      = py_round2 (hv_spec (candles.map Candle.close)) := by
  have hn : (candles.map Candle.close).length = candles.length := List.length_map _ _
  have hlen : (log_returns (candles.map Candle.close)).length = candles.length - 1 := by
    rw [log_returns_length, hn]
  have hne : log_returns (candles.map Candle.close) ≠ [] := by
    intro h0
    rw [h0] at hlen
    simp at hlen
    omega
  have hofn := log_returns_eq_ofFn (candles.map Candle.close)
  simp only [get_historical_volatility, hv_spec]
  rw [if_neg (by omega), if_neg hne]
  rw [hofn]
  simp only [List.map_ofFn, List.sum_ofFn, List.length_ofFn, Function.comp]
  simp only [← Fin.sum_univ_eq_sum_range]
  have h1 : 1 ≤ (List.map Candle.close candles).length := by rw [hn]; omega
  simp only [Nat.cast_sub h1, Nat.cast_one]
  rw [sub_sub]
  norm_num

/-- On the concrete candle list the spec formula evaluates to 100√2. -/
theorem hv_spec_c8 : hv_spec (c8candles.map Candle.close) = Real.sqrt 2 * 100 := by
  have hexp : Real.exp c8t ≠ 0 := Real.exp_ne_zero _
  simp only [hv_spec, c8candles, List.map]
  norm_num [Finset.sum_range_succ, List.getD_cons_zero, List.getD_cons_succ,
    div_one, Real.log_exp, div_self hexp, Real.log_one]
  rw [show ((c8t - c8t / 9) ^ 2 + (c8t / 9) ^ 2 + (c8t / 9) ^ 2 + (c8t / 9) ^ 2
      + (c8t / 9) ^ 2 + (c8t / 9) ^ 2 + (c8t / 9) ^ 2 + (c8t / 9) ^ 2 + (c8t / 9) ^ 2 : ℝ)
      = 8 * (c8t / 3) ^ 2 from by ring]
  rw [Real.sqrt_mul (by norm_num : (0:ℝ) ≤ 8), Real.sqrt_sq (by unfold c8t; positivity)]
  rw [mul_div_cancel_left₀ _ (by positivity : Real.sqrt 8 ≠ 0)]
  rw [show c8t / 3 = Real.sqrt (2/365) from by unfold c8t; ring]
  rw [← Real.sqrt_mul (by norm_num : (0:ℝ) ≤ 2/365)]
  norm_num

/-- Python's `round(x, 2)` always returns a rational value. -/
theorem py_round2_rational (x : ℝ) : ∃ q : ℚ, py_round2 x = (q : ℝ) := by
  refine ⟨(round_half_even (x * 100) : ℚ) / 100, ?_⟩
  unfold py_round2
  push_cast
  ring

/-! ## Claim theorems -/

/-- C4 (refuting the claim): no polling-loop tick can ever record a
`DAY_HIGH_BREAKOUT` or `DAY_LOW_BREAKDOWN` exit, because lines 650–653
widen `day_high`/`day_low` to include the fetched spot before
`check_exit_conditions` compares the spot strictly against them. -/
theorem C4_breakout_never_fires (s : BotState) (spot : ℚ) (h m : ℕ)
    (hv_check hv : ℚ) (chain : List OptionC) (prem : ℕ → ℚ) :
    (tick_exit_result s spot h m hv_check hv chain prem).map Prod.fst
        ≠ some ExitReason.DAY_HIGH_BREAKOUT ∧
    (tick_exit_result s spot h m hv_check hv chain prem).map Prod.fst
        ≠ some ExitReason.DAY_LOW_BREAKDOWN := by
  have hu := tick_after_entry_untouched s spot h m hv_check hv chain prem
  unfold tick_exit_result
  by_cases hpa : (tick_after_entry s spot h m hv_check hv chain prem).positionActive = true
  · rw [if_pos hpa]
    unfold check_exit_conditions
    cases hsl1 : slCheck (tick_after_entry s spot h m hv_check hv chain prem).callPid
        (tick_after_entry s spot h m hv_check hv chain prem).callSl prem with
    | some c => simp
    | none =>
        cases hsl2 : slCheck (tick_after_entry s spot h m hv_check hv chain prem).putPid
            (tick_after_entry s spot h m hv_check hv chain prem).putSl prem with
        | some p => simp
        | none =>
            simp only [hu.1, hu.2.1, day_high_break_updated, day_low_break_updated,
              Bool.false_eq_true, if_false]
            split_ifs <;> simp
  · rw [if_neg hpa]
    simp

/-- C4 witness: at spot 101 with prior day high 100, an ACTIVE position and
no stop-loss or time condition (10:05 tick), the tick does not record a
breakout exit — the position simply stays ACTIVE. -/
theorem C4_breakout_never_fires_witness :
    ((tick_exit_result c4state 101 10 5 40 40 demoChain demoPrem).map Prod.fst
        ≠ some ExitReason.DAY_HIGH_BREAKOUT ∧
      (tick_exit_result c4state 101 10 5 40 40 demoChain demoPrem).map Prod.fst
        ≠ some ExitReason.DAY_LOW_BREAKDOWN) ∧
    (monitor_tick c4state (some 101) 10 5 40 40 demoChain demoPrem).positionActive = true :=
  ⟨C4_breakout_never_fires c4state 101 10 5 40 40 demoChain demoPrem,
    by norm_num [monitor_tick, tick_after_entry, tick_exit_result, update_day_stats,
      check_exit_conditions, slCheck, day_high_break, day_low_break, c4state,
      initialState, demoChain, demoPrem]⟩

/-- C1 (refuting the claim): concrete two-day run.  Day 1's 8:00 attempt
fails the volatility check (HV 80), leaving the global `trade_mode` at
VIRTUAL.  On day 2 all five EntryGate checks pass — exactly the inputs
(spot 100, day high/low 100, HV 40, the demo chain and premiums) the day-2
entry receives — yet the created position's mode is VIRTUAL, not the
claimed REAL. -/
theorem C1_mode_counterexample :
    c1s1.tradeMode = Mode.VIRTUAL ∧
    entry_checks_pass 100 (some 100) (some 100) 40 40 demoChain demoPrem = true ∧
    c1s4.positionActive = true ∧
    c1s4.tradeMode = Mode.VIRTUAL := by
  refine ⟨by rw [c1s1_eval], ?_, by rw [c1s4_eval], by rw [c1s4_eval]⟩
  norm_num [entry_checks_pass, demoChain, demoPrem, find_best_strikes, pymin, otm_for,
    check_market_conditions, trend_check, OTM_PERCENTAGE, OTM_LOW_IV,
    MIN_COMBINED_PREMIUM, PREMIUM_BALANCE_LIMIT, MAX_HV, List.filter, List.cons_ne_nil]

/-- C2: at the spec's Example 3 input (premium 10, stop multiplier 5, daily
risk budget 11.76) the code computes quantity 2, not the claimed
`max(1, floor(risk / (premium × (M−1)))) = 1`: the reachable return at
line 331 multiplies the raw quantity by 10 before truncating. -/
theorem C2_position_size_code_eval :
    calculate_position_size 10 = 2 ∧
    max 1 ⌊RISK_PER_DAY_USD / (10 * (SL_MULTIPLIER - 1))⌋ = 1 ∧
    calculate_position_size 10
      ≠ max 1 ⌊RISK_PER_DAY_USD / (10 * (SL_MULTIPLIER - 1))⌋ := by
  have h1 : calculate_position_size 10 = 2 := by
    rw [calculate_position_size_pos 10 (by norm_num)]
    norm_num [RISK_PER_DAY_USD, SL_MULTIPLIER]
  have h2 : max 1 ⌊RISK_PER_DAY_USD / (10 * (SL_MULTIPLIER - 1))⌋ = 1 := by
    norm_num [RISK_PER_DAY_USD, SL_MULTIPLIER]
  exact ⟨h1, h2, by rw [h1, h2]; decide⟩

/-- C9: the position-sizing function is monotonically non-increasing in the
premium, and returns at least 1 contract for every positive premium. -/
theorem C9_sizer_monotone (p₁ p₂ : ℚ) (h1 : 0 < p₁) (h2 : p₁ ≤ p₂) :
    calculate_position_size p₂ ≤ calculate_position_size p₁ ∧
    1 ≤ calculate_position_size p₁ := by
  have hp2 : 0 < p₂ := lt_of_lt_of_le h1 h2
  have hs : SL_MULTIPLIER - 1 = 4 := by norm_num [SL_MULTIPLIER]
  have hR : (0:ℚ) ≤ RISK_PER_DAY_USD := by norm_num [RISK_PER_DAY_USD]
  rw [calculate_position_size_pos p₁ h1, calculate_position_size_pos p₂ hp2]
  refine ⟨max_le_max le_rfl (Int.floor_le_floor ?_), le_max_left _ _⟩
  have hl1 : 0 < p₁ * (SL_MULTIPLIER - 1) := by rw [hs]; positivity
  have hmono : RISK_PER_DAY_USD / (p₂ * (SL_MULTIPLIER - 1))
      ≤ RISK_PER_DAY_USD / (p₁ * (SL_MULTIPLIER - 1)) := by
    apply div_le_div_of_nonneg_left hR hl1
    rw [hs]
    nlinarith
  nlinarith [hmono]

/-- C9 witness: instantiated at premiums 10 ≤ 20. -/
theorem C9_sizer_monotone_witness :
    (0:ℚ) < 10 ∧ (10:ℚ) ≤ 20 ∧
    (calculate_position_size 20 ≤ calculate_position_size 10 ∧
      1 ≤ calculate_position_size 10) :=
  ⟨by norm_num, by norm_num, C9_sizer_monotone 10 20 (by norm_num) (by norm_num)⟩

/-- C10: the OTM offset used for the strike targets is 0.015 exactly when
the recomputed historical volatility is < 30 and 0.02 otherwise; these are
the only two offsets. -/
theorem C10_otm_offset (hv : ℚ) :
    (hv < 30 → otm_for hv = 15/1000) ∧
    (¬hv < 30 → otm_for hv = 2/100) ∧
    (otm_for hv = OTM_LOW_IV ∨ otm_for hv = OTM_PERCENTAGE) := by
  unfold otm_for OTM_LOW_IV OTM_PERCENTAGE
  split_ifs with h
  · exact ⟨fun _ => rfl, fun h' => absurd h h', Or.inl rfl⟩
  · exact ⟨fun h' => absurd h' h, fun _ => rfl, Or.inr rfl⟩

/-- C10 witness: instantiated at hv = 20 (low-IV offset) and hv = 40. -/
theorem C10_otm_offset_witness :
    ((20:ℚ) < 30 ∧ otm_for 20 = 15/1000) ∧
    (¬(40:ℚ) < 30 ∧ otm_for 40 = 2/100) :=
  ⟨⟨by norm_num, (C10_otm_offset 20).1 (by norm_num)⟩,
   ⟨by norm_num, (C10_otm_offset 40).2.1 (by norm_num)⟩⟩

/-- C7: exit checks run in the fixed order call stop-loss, put stop-loss,
12:30 exit, 17:15 exit, day-high breakout, day-low breakdown, and the first
matching condition determines the close; in particular a call-leg stop hit
exits with `SL_HIT_CALL` at the triggering premium even when a time-exit
condition holds on the same tick. -/
theorem C7_exit_priority (callPid putPid : Option ℕ) (callSl putSl : ℚ)
    (prem : ℕ → ℚ) (h m : ℕ) (spot : ℚ) (dHigh dLow : Option ℚ) :
    (∀ pid, callPid = some pid → prem pid ≠ 0 → prem pid ≥ callSl →
      check_exit_conditions callPid putPid callSl putSl prem h m spot dHigh dLow
        = some (.SL_HIT_CALL, prem pid)) ∧
    (slCheck callPid callSl prem = none →
      ∀ pid, putPid = some pid → prem pid ≠ 0 → prem pid ≥ putSl →
      check_exit_conditions callPid putPid callSl putSl prem h m spot dHigh dLow
        = some (.SL_HIT_PUT, prem pid)) ∧
    (slCheck callPid callSl prem = none → slCheck putPid putSl prem = none →
      h = 12 → m = 30 →
      check_exit_conditions callPid putPid callSl putSl prem h m spot dHigh dLow
        = some (.TIME_EXIT_1230, spot)) ∧
    (slCheck callPid callSl prem = none → slCheck putPid putSl prem = none →
      h = 17 → m = 15 →
      check_exit_conditions callPid putPid callSl putSl prem h m spot dHigh dLow
        = some (.TIME_EXIT_1715, spot)) ∧
    (slCheck callPid callSl prem = none → slCheck putPid putSl prem = none →
      ¬(h = 12 ∧ m = 30) → ¬(h = 17 ∧ m = 15) →
      day_high_break dHigh spot = true →
      check_exit_conditions callPid putPid callSl putSl prem h m spot dHigh dLow
        = some (.DAY_HIGH_BREAKOUT, spot)) ∧
    (slCheck callPid callSl prem = none → slCheck putPid putSl prem = none →
      ¬(h = 12 ∧ m = 30) → ¬(h = 17 ∧ m = 15) →
      day_high_break dHigh spot = false → day_low_break dLow spot = true →
      check_exit_conditions callPid putPid callSl putSl prem h m spot dHigh dLow
        = some (.DAY_LOW_BREAKDOWN, spot)) := by
  refine ⟨?_, ?_, ?_, ?_, ?_, ?_⟩
  · intro pid hpid hne hge
    simp [check_exit_conditions, slCheck, hpid, hne, hge]
  · intro hc pid hpid hne hge
    rw [check_exit_conditions, hc]
    simp [slCheck, hpid, hne, hge]
  · intro hc hp hh hm
    rw [check_exit_conditions, hc, hp]
    simp [hh, hm]
  · intro hc hp hh hm
    rw [check_exit_conditions, hc, hp]
    simp [hh, hm]
  · intro hc hp ht1 ht2 hb
    rw [check_exit_conditions, hc, hp, if_neg ht1, if_neg ht2, if_pos hb]
  · intro hc hp ht1 ht2 hb hl
    rw [check_exit_conditions, hc, hp, if_neg ht1, if_neg ht2, hb, if_neg (by simp),
      if_pos hl]

/-- C7 witness: the spec's Example 4 — a call stop of 50 with current call
premium 51 exits `SL_HIT_CALL` at price 51 on a 12:30 tick, before the
time exit is considered. -/
theorem C7_exit_priority_witness :
    check_exit_conditions (some 1) none 50 0 (fun _ => 51) 12 30 100
      (some 99) (some 90) = some (.SL_HIT_CALL, 51) :=
  (C7_exit_priority (some 1) none 50 0 (fun _ => 51) 12 30 100
    (some 99) (some 90)).1 1 rfl (by norm_num) (by norm_num)

/-- C6: after the session-stats update the invariant
day_low ≤ spot ≤ day_high holds, the day high never decreases and the day
low never increases, and on a non-midnight tick the updated values are
exactly what the tick leaves in the state. -/
theorem C6_day_stats_invariant (s : BotState) (spot : ℚ) (h m : ℕ)
    (hv_check hv : ℚ) (chain : List OptionC) (prem : ℕ → ℚ) :
    ∃ hi lo, update_day_stats s.dayHigh s.dayLow spot = (some hi, some lo) ∧
      lo ≤ spot ∧ spot ≤ hi ∧
      (∀ h0, s.dayHigh = some h0 → h0 ≤ hi) ∧
      (∀ l0, s.dayLow = some l0 → lo ≤ l0) ∧
      (¬(h = 0 ∧ m = 0) →
        (monitor_tick s (some spot) h m hv_check hv chain prem).dayHigh = some hi ∧
        (monitor_tick s (some spot) h m hv_check hv chain prem).dayLow = some lo) := by
  refine ⟨(update_day_stats s.dayHigh s.dayLow spot).1.getD 0,
    (update_day_stats s.dayHigh s.dayLow spot).2.getD 0, ?_, ?_, ?_, ?_, ?_, ?_⟩
  · simp [update_day_stats]
  · simp only [update_day_stats]
    cases s.dayLow with
    | none => simp
    | some x =>
        simp only [Option.getD_some]
        split <;> simp_all [le_of_lt, le_of_not_lt]
  · simp only [update_day_stats]
    cases s.dayHigh with
    | none => simp
    | some x =>
        simp only [Option.getD_some]
        split <;> simp_all [le_of_lt, le_of_not_lt]
  · intro h0 hh0
    simp only [update_day_stats, hh0]
    split <;> simp_all [le_of_lt]
  · intro l0 hl0
    simp only [update_day_stats, hl0]
    split <;> simp_all [le_of_lt]
  · intro hmid
    have hmt := monitor_tick_not_midnight s spot h m hv_check hv chain prem hmid
    constructor
    · rw [hmt.1]
      simp [update_day_stats]
    · rw [hmt.2.1]
      simp [update_day_stats]

/-- C6 witness: instantiated at day high 4, day low 2, spot 3, on a
non-midnight tick (5:00). -/
theorem C6_day_stats_invariant_witness :
    ∃ hi lo,
      update_day_stats (some (4:ℚ)) (some 2) 3 = (some hi, some lo) ∧
      lo ≤ 3 ∧ (3:ℚ) ≤ hi ∧
      (∀ h0, (some (4:ℚ)) = some h0 → h0 ≤ hi) ∧
      (∀ l0, (some (2:ℚ)) = some l0 → lo ≤ l0) ∧
      (¬((5:ℕ) = 0 ∧ (0:ℕ) = 0) →
        (monitor_tick { initialState with dayHigh := some 4, dayLow := some 2 }
          (some 3) 5 0 40 40 [] (fun _ => 0)).dayHigh = some hi ∧
        (monitor_tick { initialState with dayHigh := some 4, dayLow := some 2 }
          (some 3) 5 0 40 40 [] (fun _ => 0)).dayLow = some lo) :=
  C6_day_stats_invariant { initialState with dayHigh := some 4, dayLow := some 2 }
    3 5 0 40 40 [] (fun _ => 0)

/-- C3: an empty option chain, a failed strike selection, or a premium
fetched as zero on either leg is a hard abort: no position is activated, no
sizing state is committed, and the logged record is the distinct
`SKIPPED_NO_DATA` / `SKIPPED_NO_PREMIUM` status, not a suitability
rejection's `EXECUTED`/`VIRTUAL_TRACKING`. -/
theorem C3_hard_abort (mode0 : Mode) (spot : ℚ) (dHigh dLow : Option ℚ)
    (hv_check hv : ℚ) (chain : List OptionC) (prem : ℕ → ℚ)
    (hdata : chain = [] ∨ find_best_strikes spot (otm_for hv) chain = none ∨
      (∀ bc bp, find_best_strikes spot (otm_for hv) chain = some (bc, bp) →
        prem bc.product_id = 0 ∨ prem bp.product_id = 0)) :
    (execute_entry mode0 spot dHigh dLow hv_check hv chain prem).position_active = false ∧
    (execute_entry mode0 spot dHigh dLow hv_check hv chain prem).sizing = none ∧
    ((execute_entry mode0 spot dHigh dLow hv_check hv chain prem).status = .SKIPPED_NO_DATA ∨
      (execute_entry mode0 spot dHigh dLow hv_check hv chain prem).status = .SKIPPED_NO_PREMIUM) ∧
    (execute_entry mode0 spot dHigh dLow hv_check hv chain prem).status ≠ .EXECUTED ∧
    (execute_entry mode0 spot dHigh dLow hv_check hv chain prem).status ≠ .VIRTUAL_TRACKING := by
  have hcases : (if chain = [] then none else find_best_strikes spot (otm_for hv) chain) = none ∨
      ∃ bc bp, (if chain = [] then none else find_best_strikes spot (otm_for hv) chain)
          = some (bc, bp) ∧ (prem bc.product_id = 0 ∨ prem bp.product_id = 0) := by
    rcases hdata with hempty | hnone | hprem
    · left
      simp [hempty]
    · left
      split <;> simp [hnone]
    · by_cases hch : chain = []
      · left
        simp [hch]
      · cases hs : find_best_strikes spot (otm_for hv) chain with
        | none => left; simp [hch, hs]
        | some pr =>
            obtain ⟨bc, bp⟩ := pr
            right
            exact ⟨bc, bp, by simp [hch, hs], hprem bc bp hs⟩
  simp only [execute_entry]
  rcases hcases with hnone | ⟨bc, bp, hsome, hzero⟩
  · simp only [hnone]
    simp
  · simp only [hsome]
    simp only [if_pos hzero]
    simp

/-- C3 witness: instantiated at an empty option chain. -/
theorem C3_hard_abort_witness :
    (execute_entry Mode.REAL 100 none none 40 40 [] (fun _ => 0)).position_active = false ∧
    (execute_entry Mode.REAL 100 none none 40 40 [] (fun _ => 0)).sizing = none ∧
    ((execute_entry Mode.REAL 100 none none 40 40 [] (fun _ => 0)).status = .SKIPPED_NO_DATA ∨
      (execute_entry Mode.REAL 100 none none 40 40 [] (fun _ => 0)).status = .SKIPPED_NO_PREMIUM) ∧
    (execute_entry Mode.REAL 100 none none 40 40 [] (fun _ => 0)).status ≠ .EXECUTED ∧
    (execute_entry Mode.REAL 100 none none 40 40 [] (fun _ => 0)).status ≠ .VIRTUAL_TRACKING :=
  C3_hard_abort Mode.REAL 100 none none 40 40 [] (fun _ => 0) (Or.inl rfl)

/-- C1 (as amended): when an entry attempt completes without a hard abort,
the created position's mode is REAL iff all five EntryGate checks pass on
that attempt AND the incoming global `trade_mode` is still REAL — the
source never resets `trade_mode` back to REAL, so an earlier failed
attempt makes every later all-pass attempt VIRTUAL. -/
theorem C1_mode_iff (mode0 : Mode) (spot : ℚ) (dHigh dLow : Option ℚ)
    (hv_check hv : ℚ) (chain : List OptionC) (prem : ℕ → ℚ)
    (hact : (execute_entry mode0 spot dHigh dLow hv_check hv chain prem).position_active = true) :
    (execute_entry mode0 spot dHigh dLow hv_check hv chain prem).mode = Mode.REAL ↔
      (mode0 = Mode.REAL ∧
        entry_checks_pass spot dHigh dLow hv_check hv chain prem = true) := by
  simp only [execute_entry, entry_checks_pass] at hact ⊢
  cases hsel : (if chain = [] then none else find_best_strikes spot (otm_for hv) chain) with
  | none =>
      rw [hsel] at hact
      simp at hact
  | some pr =>
      obtain ⟨bc, bp⟩ := pr
      rw [hsel] at hact
      by_cases hz : prem bc.product_id = 0 ∨ prem bp.product_id = 0
      · simp [hz] at hact
      · obtain ⟨hc0, hp0⟩ := not_or.mp hz
        by_cases hcomb : prem bc.product_id + prem bp.product_id < MIN_COMBINED_PREMIUM
        · simp [hz, hc0, hp0, hcomb, not_le.mpr hcomb]
        · by_cases hmx : max (prem bc.product_id) (prem bp.product_id) > 0
          · by_cases hr : |prem bc.product_id - prem bp.product_id|
                / max (prem bc.product_id) (prem bp.product_id) > PREMIUM_BALANCE_LIMIT
            · simp [hz, hc0, hp0, hcomb, hmx, hr, not_le.mpr hr]
            · cases hsuit : check_market_conditions spot dHigh dLow hv_check with
              | false => simp [hz, hc0, hp0, hcomb, hmx, hr, hsuit]
              | true =>
                  simp [hz, hc0, hp0, hcomb, hmx, hr, hsuit, not_lt.mp hcomb,
                    not_lt.mp hr, ge_iff_le]
          · exfalso
            push_neg at hmx hcomb
            have h1 : prem bc.product_id ≤ 0 := le_trans (le_max_left _ _) hmx
            have h2 : prem bp.product_id ≤ 0 := le_trans (le_max_right _ _) hmx
            have h3 : (0:ℚ) < MIN_COMBINED_PREMIUM := by norm_num [MIN_COMBINED_PREMIUM]
            linarith

/-- C5 (as amended): the midnight tick resets day_high, day_low and
trade_executed_today, archiving the outgoing high/low into
prev_day_high/prev_day_low, while `base_price` is NOT cleared — it keeps
its previous value; no other tick clears these fields (day_high stays set
and trade_executed_today stays on once set). -/
theorem C5_midnight_reset (s : BotState) (spot : ℚ) (h m : ℕ)
    (hv_check hv : ℚ) (chain : List OptionC) (prem : ℕ → ℚ) :
    (h = 0 ∧ m = 0 →
      (monitor_tick s (some spot) h m hv_check hv chain prem).dayHigh = none ∧
      (monitor_tick s (some spot) h m hv_check hv chain prem).dayLow = none ∧
      (monitor_tick s (some spot) h m hv_check hv chain prem).tradeExecutedToday = false ∧
      (monitor_tick s (some spot) h m hv_check hv chain prem).prevDayHigh
          = (update_day_stats s.dayHigh s.dayLow spot).1 ∧
      (monitor_tick s (some spot) h m hv_check hv chain prem).prevDayLow
          = (update_day_stats s.dayHigh s.dayLow spot).2 ∧
      (monitor_tick s (some spot) h m hv_check hv chain prem).basePrice = s.basePrice) ∧
    (¬(h = 0 ∧ m = 0) →
      (monitor_tick s (some spot) h m hv_check hv chain prem).dayHigh
          = (update_day_stats s.dayHigh s.dayLow spot).1 ∧
      (monitor_tick s (some spot) h m hv_check hv chain prem).dayHigh ≠ none ∧
      (s.tradeExecutedToday = true →
        (monitor_tick s (some spot) h m hv_check hv chain prem).tradeExecutedToday = true)) := by
  constructor
  · rintro ⟨rfl, rfl⟩
    have hnf := tick_after_entry_not_fired s spot 0 0 hv_check hv chain prem (by simp)
    simp only [monitor_tick, and_self, ite_true]
    cases htick : tick_exit_result s spot 0 0 hv_check hv chain prem with
    | none => simp [hnf]
    | some e => simp [hnf]
  · intro hmid
    have hmt := monitor_tick_not_midnight s spot h m hv_check hv chain prem hmid
    refine ⟨hmt.1, ?_, hmt.2.2⟩
    rw [hmt.1]
    obtain ⟨v, hv', _⟩ := update_day_stats_high_le s.dayHigh s.dayLow spot
    rw [hv']
    simp

/-- C5 (refuting the claim as stated): at a concrete midnight tick the
other three per-day fields are cleared but `base_price` keeps its old
value 50000 — it is not reset in that step. -/
theorem C5_base_price_not_reset :
    (monitor_tick c5state (some 100) 0 0 40 40 [] (fun _ => 0)).dayHigh = none ∧
    (monitor_tick c5state (some 100) 0 0 40 40 [] (fun _ => 0)).dayLow = none ∧
    (monitor_tick c5state (some 100) 0 0 40 40 [] (fun _ => 0)).tradeExecutedToday = false ∧
    (monitor_tick c5state (some 100) 0 0 40 40 [] (fun _ => 0)).basePrice = some 50000 ∧
    (monitor_tick c5state (some 100) 0 0 40 40 [] (fun _ => 0)).basePrice ≠ none := by
  norm_num [monitor_tick, tick_after_entry, tick_exit_result, update_day_stats,
    check_exit_conditions, slCheck, day_high_break, day_low_break, c5state, initialState]
  simp

/-- C5 witness: the amended theorem instantiated at the concrete midnight
tick on `c5state`. -/
theorem C5_midnight_reset_witness :
    ((0:ℕ) = 0 ∧ (0:ℕ) = 0 →
      (monitor_tick c5state (some 100) 0 0 40 40 [] (fun _ => 0)).dayHigh = none ∧
      (monitor_tick c5state (some 100) 0 0 40 40 [] (fun _ => 0)).dayLow = none ∧
      (monitor_tick c5state (some 100) 0 0 40 40 [] (fun _ => 0)).tradeExecutedToday = false ∧
      (monitor_tick c5state (some 100) 0 0 40 40 [] (fun _ => 0)).prevDayHigh
          = (update_day_stats c5state.dayHigh c5state.dayLow 100).1 ∧
      (monitor_tick c5state (some 100) 0 0 40 40 [] (fun _ => 0)).prevDayLow
          = (update_day_stats c5state.dayHigh c5state.dayLow 100).2 ∧
      (monitor_tick c5state (some 100) 0 0 40 40 [] (fun _ => 0)).basePrice
          = c5state.basePrice) ∧
    (¬((0:ℕ) = 0 ∧ (0:ℕ) = 0) →
      (monitor_tick c5state (some 100) 0 0 40 40 [] (fun _ => 0)).dayHigh
          = (update_day_stats c5state.dayHigh c5state.dayLow 100).1 ∧
      (monitor_tick c5state (some 100) 0 0 40 40 [] (fun _ => 0)).dayHigh ≠ none ∧
      (c5state.tradeExecutedToday = true →
        (monitor_tick c5state (some 100) 0 0 40 40 [] (fun _ => 0)).tradeExecutedToday
          = true)) :=
  C5_midnight_reset c5state 100 0 0 40 40 [] (fun _ => 0)

/-- C8 (as amended): for at least 10 closes the estimator returns the
sample (N−1) standard deviation of the consecutive log-returns × √365 ×
100, *rounded half-to-even to two decimal places* (`round(hv, 2)` at
line 247); with fewer than 10 points — in particular the empty list a
failed candle request yields — it returns the fixed fallback 40. -/
theorem C8_hv_estimator (candles : List Candle) :
    (candles.length < 10 → get_historical_volatility candles = 40) ∧
    (10 ≤ candles.length →
      get_historical_volatility candles
        = py_round2 (hv_spec (candles.map Candle.close))) := by
  constructor
  · intro h
    simp [get_historical_volatility, h]
  · exact hv_code_eq_spec candles

/-- C8 witness: the failed-request case — an empty candle list falls back
to 40. -/
theorem C8_hv_estimator_witness : get_historical_volatility [] = 40 :=
  (C8_hv_estimator []).1 (by norm_num)

/-- C8 (refuting the claim as stated): on ten concrete closes whose exact
annualized volatility is the irrational 100√2, the code's rounded result
is rational, hence differs from the claimed unrounded
stdev × √365 × 100. -/
theorem C8_hv_not_unrounded :
    get_historical_volatility c8candles ≠ hv_spec (c8candles.map Candle.close) := by
  rw [hv_code_eq_spec c8candles (by norm_num [c8candles]), hv_spec_c8]
  intro heq
  obtain ⟨q, hq⟩ := py_round2_rational (Real.sqrt 2 * 100)
  have hirr : Irrational (Real.sqrt 2 * 100) := by
    have h2 := irrational_sqrt_two.mul_rat (show (100:ℚ) ≠ 0 by norm_num)
    simpa using h2
  exact hirr.ne_rat q (by rw [← heq, hq])

/-- C1 witness (for the amended theorem): a REAL-mode attempt on which all
five checks pass is REAL iff those checks pass. -/
theorem C1_mode_iff_witness :
    (execute_entry Mode.REAL 100 (some 110) (some 90) 40 40 demoChain demoPrem).mode
        = Mode.REAL ↔
      (Mode.REAL = Mode.REAL ∧
        entry_checks_pass 100 (some 110) (some 90) 40 40 demoChain demoPrem = true) :=
  C1_mode_iff Mode.REAL 100 (some 110) (some 90) 40 40 demoChain demoPrem
    (by norm_num [execute_entry, demoChain, demoPrem, find_best_strikes, pymin, otm_for,
      check_market_conditions, trend_check, OTM_PERCENTAGE, OTM_LOW_IV,
      MIN_COMBINED_PREMIUM, PREMIUM_BALANCE_LIMIT, MAX_HV, List.filter,
      List.cons_ne_nil])

end StrangleBot
